import Mathlib

/-!
Shallow embedding of the offline contract-class VK membership verifier of the
`offchain-account-ownership` example: `utils/contract_class.ts` and `utils/types.ts`,
the generic end-to-end verification flow of `verify.ts`, and the Schnorr-specific
flow of `scripts/verify_proof.ts`.

Field elements are BN254 scalars used only through equality and two opaque hash
primitives, so the carrier is `Nat` and the hash primitives are an explicit
environment parameter, exactly as the source consumes them from the external
`@aztec/foundation` package.
-/

/-- A field element (BN254 scalar), canonically reduced.  The verifier only ever
compares field elements and feeds them to the opaque hash primitives, so the
carrier is `Nat`. -/
abbrev F := Nat

/-- Wire model of the hex strings that carry field elements in the JSON payload.
A well-formed canonical hex string is identified with the field element it
denotes (the library `Fr.toString` produces exactly one canonical string per
element); a malformed string keeps its raw text.  String equality on the wire
corresponds to equality of `Wire` values. -/
inductive Wire where
  | field (f : F)
  | malformed (s : String)
deriving DecidableEq

/-- Model of the library `Fr.fromString`: succeeds exactly on well-formed
strings, throws otherwise (modelled by `Except.error`). -/
def Wire.fromString : Wire → Except String F
  | .field f => Except.ok f
  | .malformed s => Except.error ("Invalid field element: " ++ s)

/-- Whether a wire string is a well-formed canonical field element. -/
def Wire.isField : Wire → Bool
  | .field _ => true
  | .malformed _ => false

/-- Rendering a wire value back to a string (`Fr.toString` for field values). -/
def Wire.render : Wire → String
  | .field f => toString f
  | .malformed s => s

/-- The two hash primitives and the domain-separator tags that the source
imports from the external `@aztec/foundation/crypto/poseidon` and
`@aztec/constants` packages (poseidon2Hash, poseidon2HashWithSeparator,
GeneratorIndex.FUNCTION_LEAF, GeneratorIndex.CONTRACT_LEAF): opaque
deterministic functions over the field, passed as an explicit environment. -/
structure HashEnv where
  hashPair : F → F → F
  hashWithSeparator : List F → Nat → F
  functionLeafTag : Nat
  contractLeafTag : Nat

/-- utils/types.ts FunctionLeafPreimage: both components travel as hex strings. -/
structure FunctionLeafPreimage where
  selector : Wire
  vkHash : Wire
deriving DecidableEq

/-- utils/types.ts VkMembershipProof. -/
structure VkMembershipProof where
  leafPreimage : FunctionLeafPreimage
  siblingPath : List Wire
  leafIndex : Nat
deriving DecidableEq

/-- utils/types.ts GenericOwnershipProof.contractClass: the claimed class id and
the two faith-supplied preimage components (privateFunctionsRoot deliberately absent). -/
structure ContractClassClaim where
  id : Wire
  artifactHash : Wire
  publicBytecodeCommitment : Wire
deriving DecidableEq

/-- utils/types.ts GenericOwnershipProof.proof: the blob handed to the external backend. -/
structure ProofBlob where
  rawProof : List Nat
  publicInputs : List Wire
deriving DecidableEq

/-- utils/types.ts GenericOwnershipProof.vk. -/
structure VkData where
  asFields : List Wire
  hash : Wire
deriving DecidableEq

/-- utils/types.ts GenericOwnershipProof.metadata. -/
structure ProofMetadata where
  generatedAt : String
  accountType : Option String
  functionName : String
deriving DecidableEq

/-- utils/types.ts GenericOwnershipProof: the whole wire payload. -/
structure GenericOwnershipProof where
  contractClass : ContractClassClaim
  proof : ProofBlob
  vk : VkData
  vkMembershipProof : VkMembershipProof
  challenge : String
  metadata : ProofMetadata
deriving DecidableEq

/-- utils/types.ts VerificationResult.details. -/
structure VerificationDetails where
  vkMembershipValid : Bool
  contractClassIdValid : Bool
  proofValid : Bool
  selectorValid : Bool
deriving DecidableEq

/-- utils/types.ts VerificationResult (`details` is an optional field there). -/
structure VerificationResult where
  isValid : Bool
  contractClassId : Wire
  message : String
  details : Option VerificationDetails
deriving DecidableEq

/-- contract_class.ts computeFunctionLeafHash, in the `Fr` branch of its
`FunctionSelector | Fr` union (the branch the verifier exercises):
poseidon2HashWithSeparator([selector, vkHash], GeneratorIndex.FUNCTION_LEAF). -/
def computeFunctionLeafHash (env : HashEnv) (selectorField vkHash : F) : F :=
  env.hashWithSeparator [selectorField, vkHash] env.functionLeafTag

/-- Modelled from the spec: the body of `computeRootFromSiblingPath` lives in the
external `@aztec/foundation/trees` package and is not part of this repository.
Spec section 4.3 gives its algorithm: the accumulator starts at the leaf and, at
each level, bit i of the leaf index decides whether the accumulator is the left
operand (bit 0) or the right operand (bit 1) of `hashPair` with that level's
sibling.  The fold below realises this by consuming the index one bit at a time. -/
def computeRootFromSiblingPath (env : HashEnv) : F → List F → Nat → F
  | leaf, [], _ => leaf
  | leaf, s :: rest, index =>
    computeRootFromSiblingPath env
      (if index % 2 = 0 then env.hashPair leaf s else env.hashPair s leaf)
      rest (index / 2)

/-- contract_class.ts computeRootFromMembershipProof: parse the two leaf-preimage
strings (`Fr.fromString` throws on a malformed string), hash the leaf, then walk
the sibling path.  Note that no validation of `leafIndex` or of the sibling-path
length happens anywhere in this function. -/
def computeRootFromMembershipProof (env : HashEnv) (leafPreimage : FunctionLeafPreimage)
    (siblingPath : List F) (leafIndex : Nat) : Except String F :=
  match leafPreimage.selector.fromString with
  | .error e => .error e
  | .ok selectorField =>
    match leafPreimage.vkHash.fromString with
    | .error e => .error e
    | .ok vkHashField =>
      .ok (computeRootFromSiblingPath env
        (computeFunctionLeafHash env selectorField vkHashField) siblingPath leafIndex)

/-- contract_class.ts computeContractClassId:
poseidon2HashWithSeparator([artifactHash, privateFunctionsRoot,
publicBytecodeCommitment], GeneratorIndex.CONTRACT_LEAF). -/
def computeContractClassId (env : HashEnv)
    (artifactHash privateFunctionsRoot publicBytecodeCommitment : F) : F :=
  env.hashWithSeparator [artifactHash, privateFunctionsRoot, publicBytecodeCommitment]
    env.contractLeafTag

/-- The record returned by contract_class.ts verifyVkMembershipAndComputeClassId. -/
structure ClassIdResult where
  computedClassId : F
  computedPrivateFunctionsRoot : F
deriving DecidableEq

/-- The conversion `siblingPath.map((s) => Fr.fromString(s))` of
contract_class.ts: the map throws on the first malformed entry. -/
def mapFromString : List Wire → Except String (List F)
  | [] => .ok []
  | w :: rest =>
    match w.fromString with
    | .error e => .error e
    | .ok f =>
      match mapFromString rest with
      | .error e => .error e
      | .ok fs => .ok (f :: fs)

/-- contract_class.ts verifyVkMembershipAndComputeClassId: convert the string
fields, recompute the private-functions root from the membership proof, and hash
the class id from the recomputed root.  The function takes no claimed class id
or claimed root and performs no comparison; it only recomputes. -/
def verifyVkMembershipAndComputeClassId (env : HashEnv)
    (vkMembershipProof : VkMembershipProof)
    (artifactHash publicBytecodeCommitment : Wire) : Except String ClassIdResult :=
  match mapFromString vkMembershipProof.siblingPath with
  | .error e => .error e
  | .ok siblingPath =>
    match artifactHash.fromString with
    | .error e => .error e
    | .ok artifactHashFr =>
      match publicBytecodeCommitment.fromString with
      | .error e => .error e
      | .ok publicBytecodeCommitmentFr =>
        match computeRootFromMembershipProof env vkMembershipProof.leafPreimage
            siblingPath vkMembershipProof.leafIndex with
        | .error e => .error e
        | .ok computedPrivateFunctionsRoot =>
          .ok { computedClassId := computeContractClassId env artifactHashFr
                  computedPrivateFunctionsRoot publicBytecodeCommitmentFr,
                computedPrivateFunctionsRoot := computedPrivateFunctionsRoot }

/-- contract_class.ts isVerifyPrivateAuthwitSelector: only the function NAME is
compared; the selector argument is deliberately ignored (underscore parameter in
the source, documented there because parameter signatures vary between account
types). -/
def isVerifyPrivateAuthwitSelector (_selector : String) (functionName : String) : Bool :=
  decide (functionName = "verify_private_authwit")

/-- The `{isValid, message}` records returned by the sub-steps of verify.ts. -/
structure CheckResult where
  isValid : Bool
  message : String
deriving DecidableEq

/-- The record returned by verify.ts verifyVkMembership; the source carries the
computed values as strings and uses the empty string in the catch branch, which
is modelled by `Option`. -/
structure VkCheckResult where
  isValid : Bool
  computedClassId : Option F
  computedPrivateFunctionsRoot : Option F
  message : String
deriving DecidableEq

/-- verify.ts verifyVkMembership: run the recomputation, compare the computed
class id string against the claimed one (string equality in the source,
which the wire model carries over to `Wire` equality), and catch any thrown
error into a false result.  The mismatch message is spelled with "does not"
here where the source literal uses a contraction. -/
def verifyVkMembership (env : HashEnv) (proofData : GenericOwnershipProof) : VkCheckResult :=
  match verifyVkMembershipAndComputeClassId env proofData.vkMembershipProof
      proofData.contractClass.artifactHash proofData.contractClass.publicBytecodeCommitment with
  | .ok r =>
    let classIdMatches := decide (Wire.field r.computedClassId = proofData.contractClass.id)
    { isValid := classIdMatches,
      computedClassId := some r.computedClassId,
      computedPrivateFunctionsRoot := some r.computedPrivateFunctionsRoot,
      message := if classIdMatches then
          "VK membership verified - VK is committed in the claimed contract class"
        else
          "VK membership verification FAILED - computed class ID does not match claimed ID" }
  | .error e =>
    { isValid := false, computedClassId := none, computedPrivateFunctionsRoot := none,
      message := "VK membership verification failed: " ++ e }

/-- verify.ts verifySelectorIsAuthwit: compares metadata.functionName with the
expected literal.  The leaf-preimage selector is only logged, never compared. -/
def verifySelectorIsAuthwit (proofData : GenericOwnershipProof) : CheckResult :=
  let expectedFunctionName := "verify_private_authwit"
  let actualFunctionName := proofData.metadata.functionName
  let isValid := decide (actualFunctionName = expectedFunctionName)
  { isValid := isValid,
    message := if isValid then "Selector verified as verify_private_authwit"
      else "Selector verification failed: expected " ++ expectedFunctionName
        ++ ", got " ++ actualFunctionName }

/-- The backend portion of verify.ts verifyZkProof (lines after the challenge
check): reconstruct the proof blob and delegate to the external
UltraHonkBackend.verifyProof, the opaque collaborator `backendVerify`; the
collaborator may itself throw, which propagates (collaborator failure). -/
def verifyZkProofBackend (backendVerify : ProofBlob → Except String Bool)
    (proofData : GenericOwnershipProof) : Except String CheckResult :=
  match backendVerify proofData.proof with
  | .error e => .error e
  | .ok isValid =>
    .ok { isValid := isValid,
          message := if isValid then "ZK proof verified successfully"
            else "ZK proof verification failed" }

/-- verify.ts verifyZkProof: the guard `if (expectedChallenge)` is JS truthiness,
false both for an absent argument and for the empty string; a present,
non-empty, mismatching expected challenge short-circuits to a false result
before the backend is consulted. -/
def verifyZkProof (backendVerify : ProofBlob → Except String Bool)
    (proofData : GenericOwnershipProof) (expectedChallenge : Option String) :
    Except String CheckResult :=
  match expectedChallenge with
  | some c =>
    if c = "" then verifyZkProofBackend backendVerify proofData
    else if proofData.challenge ≠ c then
      .ok { isValid := false,
            message := "Challenge mismatch: expected " ++ c ++ ", got "
              ++ proofData.challenge }
    else verifyZkProofBackend backendVerify proofData
  | none => verifyZkProofBackend backendVerify proofData

/-- An entry of the KNOWN_ACCOUNT_TYPES registry of verify.ts. -/
structure KnownAccountType where
  name : String
  description : String
deriving DecidableEq

/-- The record returned by verify.ts identifyAccountType. -/
structure AccountTypeResult where
  accountType : Option String
  isKnown : Bool
  message : String
deriving DecidableEq

/-- verify.ts identifyAccountType: a lookup in the KNOWN_ACCOUNT_TYPES registry
(a module-level Record keyed by the VK-hash string, populated from
configuration; here an explicit parameter). -/
def identifyAccountType (knownAccountTypes : Wire → Option KnownAccountType)
    (vkHash : Wire) : AccountTypeResult :=
  match knownAccountTypes vkHash with
  | some knownType =>
    { accountType := some knownType.name, isKnown := true,
      message := "Known account type: " ++ knownType.name }
  | none =>
    { accountType := none, isKnown := false,
      message := "Account type not in known registry (VK membership still valid)" }

/-- verify.ts verifyOwnershipProof, the generic end-to-end flow: the four steps
in source order; step 4 (account-type identification) feeds logging only and its
result is discarded here exactly as the source discards it; the final record
aggregates steps 1-3 with logical AND, copies the claimed class id verbatim,
and sets both contractClassIdValid and vkMembershipValid from the one step-1
sub-result.  An error thrown by the backend collaborator propagates. -/
def verifyOwnershipProof (env : HashEnv)
    (knownAccountTypes : Wire → Option KnownAccountType)
    (backendVerify : ProofBlob → Except String Bool)
    (proofData : GenericOwnershipProof) (expectedChallenge : Option String) :
    Except String VerificationResult :=
  let vkResult := verifyVkMembership env proofData
  let selectorResult := verifySelectorIsAuthwit proofData
  match verifyZkProof backendVerify proofData expectedChallenge with
  | .error e => .error e
  | .ok proofResult =>
    let _accountTypeResult := identifyAccountType knownAccountTypes
      proofData.vkMembershipProof.leafPreimage.vkHash
    let allValid := vkResult.isValid && selectorResult.isValid && proofResult.isValid
    .ok { isValid := allValid,
          contractClassId := proofData.contractClass.id,
          message := if allValid then
              "Verified: Prover controls an account of contract class "
                ++ proofData.contractClass.id.render
            else "Verification FAILED",
          details := some { vkMembershipValid := vkResult.isValid,
                            contractClassIdValid := vkResult.isValid,
                            proofValid := proofResult.isValid,
                            selectorValid := selectorResult.isValid } }

namespace Schnorr

/-- scripts/verify_proof.ts ProofData.publicInputs. -/
structure PublicInputs where
  pub_key_x : Wire
  pub_key_y : Wire
  challenge : List Nat
deriving DecidableEq

/-- scripts/verify_proof.ts ProofData.proof. -/
structure ProofPayload where
  vkAsFields : List Wire
  vkHash : Wire
  proofAsFields : List Wire
  rawProof : List Nat
  rawPublicInputs : List Wire
deriving DecidableEq

/-- scripts/verify_proof.ts ProofData.metadata. -/
structure Metadata where
  generatedAt : String
  circuitName : String
deriving DecidableEq

/-- scripts/verify_proof.ts ProofData. -/
structure ProofData where
  publicInputs : PublicInputs
  proof : ProofPayload
  metadata : Metadata
deriving DecidableEq

/-- The nested publicKey record of the Schnorr verifier's return value. -/
structure PublicKey where
  x : Wire
  y : Wire
deriving DecidableEq

/-- The return value of the Schnorr verifyOwnershipProof. -/
structure VerifyOutput where
  isValid : Bool
  publicKey : PublicKey
  vkHash : Wire
deriving DecidableEq

/-- scripts/verify_proof.ts verifyOwnershipProof, the Schnorr-specific flow:
when an expected challenge is supplied (arrays are always truthy in JS, so any
supplied array triggers the check) and does not match elementwise, the function
THROWS an Error instead of returning a structured result; otherwise it delegates
the blob of rawProof and rawPublicInputs to the external backend. -/
def verifyOwnershipProof (backendVerify : ProofBlob → Except String Bool)
    (proofData : ProofData) (expectedChallenge : Option (List Nat)) :
    Except String VerifyOutput :=
  let blob : ProofBlob := { rawProof := proofData.proof.rawProof,
                            publicInputs := proofData.proof.rawPublicInputs }
  let proceed : Except String VerifyOutput :=
    match backendVerify blob with
    | .error e => .error e
    | .ok isValid =>
      .ok { isValid := isValid,
            publicKey := { x := proofData.publicInputs.pub_key_x,
                           y := proofData.publicInputs.pub_key_y },
            vkHash := proofData.proof.vkHash }
  match expectedChallenge with
  | some expected =>
    let proofChallenge := proofData.publicInputs.challenge
    let challengeMatches := decide (expected.length = proofChallenge.length)
      && (expected.zip proofChallenge).all (fun p => decide (p.1 = p.2))
    if challengeMatches then proceed
    else .error "Challenge mismatch - possible replay attack"
  | none => proceed

end Schnorr

/-- The Merkle walk exactly as the spec words it: for each level i from 0 to
siblings.length - 1, inspect bit i of the leaf index; bit 0 hashes the
accumulator as the left operand, bit 1 as the right operand.  Used to compare
the source fold against the spec's level-indexed description. -/
def rootLoopSpec (env : HashEnv) (leafIndex : Nat) : F → Nat → List F → F
  | acc, _, [] => acc
  | acc, i, s :: rest =>
    rootLoopSpec env leafIndex
      (if leafIndex.testBit i then env.hashPair s acc else env.hashPair acc s)
      (i + 1) rest

/-- Entry point of the spec-worded Merkle walk, starting at level 0. -/
def rootFromSiblingPathSpec (env : HashEnv) (leaf : F) (siblings : List F)
    (leafIndex : Nat) : F :=
  rootLoopSpec env leafIndex leaf 0 siblings

/-- A concrete, injective-enough hash environment used for the closed witnesses
and counterexamples; the real primitives are opaque collaborators, so any
concrete instance exercises the control flow faithfully. -/
def sampleEnv : HashEnv :=
  { hashPair := fun a b => 1000003 * a + 1000033 * b + 1,
    hashWithSeparator := fun elements tag =>
      elements.foldl (fun acc x => 1000003 * acc + x + 2) (tag + 5),
    functionLeafTag := 5,
    contractLeafTag := 16 }

/-- Modelled from the spec: a stand-in for the true selector of
verify_private_authwit, which the external FunctionSelector derivation computes
from the function signature; its only relevant property here is that it differs
from the sample payload's leaf selector. -/
def expectedAuthwitSelectorSample : Wire := Wire.field 1

/-- A fully valid sample payload over `sampleEnv`: its claimed class id is
exactly the one recomputed from its own membership proof, its declared function
name is the expected literal, and its embedded challenge is "0xabc". -/
def samplePayloadValid : GenericOwnershipProof :=
  { contractClass :=
      { id := Wire.field (computeContractClassId sampleEnv 10
          (computeRootFromSiblingPath sampleEnv
            (computeFunctionLeafHash sampleEnv 99 4) [7, 8] 1) 11),
        artifactHash := Wire.field 10,
        publicBytecodeCommitment := Wire.field 11 },
    proof := { rawProof := [1, 2, 3], publicInputs := [Wire.field 1] },
    vk := { asFields := [Wire.field 1], hash := Wire.field 4 },
    vkMembershipProof :=
      { leafPreimage := { selector := Wire.field 99, vkHash := Wire.field 4 },
        siblingPath := [Wire.field 7, Wire.field 8],
        leafIndex := 1 },
    challenge := "0xabc",
    metadata := { generatedAt := "2025-01-01T00:00:00Z",
                  accountType := some "SchnorrAccount",
                  functionName := "verify_private_authwit" } }

/-- The result the generic flow produces on `samplePayloadValid` with a backend
that accepts and no expected challenge. -/
def sampleValidResult : VerificationResult :=
  { isValid := true,
    contractClassId := samplePayloadValid.contractClass.id,
    message := "Verified: Prover controls an account of contract class "
      ++ samplePayloadValid.contractClass.id.render,
    details := some { vkMembershipValid := true, contractClassIdValid := true,
                      proofValid := true, selectorValid := true } }

/-- `samplePayloadValid` with only the declared function name changed. -/
def pdWrongName : GenericOwnershipProof :=
  { samplePayloadValid with
    metadata := { samplePayloadValid.metadata with functionName := "transfer" } }

/-- The result the generic flow produces on `pdWrongName` with an accepting
backend and no expected challenge: only the selector check fails. -/
def pdWrongNameResult : VerificationResult :=
  { isValid := false,
    contractClassId := pdWrongName.contractClass.id,
    message := "Verification FAILED",
    details := some { vkMembershipValid := true, contractClassIdValid := true,
                      proofValid := true, selectorValid := false } }

/-- `samplePayloadValid` with only the claimed class id changed to a wrong value. -/
def pdBadId : GenericOwnershipProof :=
  { samplePayloadValid with
    contractClass := { samplePayloadValid.contractClass with id := Wire.field 0 } }

/-- The result the generic flow produces on `pdBadId` with an accepting backend
and no expected challenge: verification fails, the recomputed id differs from
the claim, yet the claimed id is copied into the result verbatim. -/
def pdBadIdResult : VerificationResult :=
  { isValid := false,
    contractClassId := Wire.field 0,
    message := "Verification FAILED",
    details := some { vkMembershipValid := false, contractClassIdValid := false,
                      proofValid := true, selectorValid := true } }

/-- A payload failing every check at once: wrong claimed id and wrong function
name (its challenge is still "0xabc"). -/
def pdAllBad : GenericOwnershipProof :=
  { samplePayloadValid with
    contractClass := { samplePayloadValid.contractClass with id := Wire.field 0 },
    metadata := { samplePayloadValid.metadata with functionName := "transfer" } }

/-- A sample payload for the Schnorr-specific flow with embedded challenge [2]. -/
def sampleSchnorrProofData : Schnorr.ProofData :=
  { publicInputs := { pub_key_x := Wire.field 1, pub_key_y := Wire.field 2,
                      challenge := [2] },
    proof := { vkAsFields := [], vkHash := Wire.field 3, proofAsFields := [],
               rawProof := [0], rawPublicInputs := [] },
    metadata := { generatedAt := "2025-01-01T00:00:00Z",
                  circuitName := "account_ownership_proof" } }

/-! Helper lemmas shared by the claim theorems. -/

/-- A well-formed wire value is a field constructor. -/
theorem Wire.isField_exists (w : Wire) (h : w.isField = true) : ∃ f, w = Wire.field f := by
  cases w with
  | field f => exact ⟨f, rfl⟩
  | malformed s => simp [Wire.isField] at h

/-- Converting a list of canonical field strings succeeds and is the identity. -/
theorem mapFromString_map_field (l : List F) :
    mapFromString (l.map Wire.field) = Except.ok l := by
  induction l with
  | nil => rfl
  | cons f rest ih => simp [mapFromString, Wire.fromString, ih]

/-- Converting any list of well-formed wire strings succeeds. -/
theorem mapFromString_ok (l : List Wire) (h : ∀ w ∈ l, w.isField = true) :
    ∃ fs, mapFromString l = Except.ok fs := by
  induction l with
  | nil => exact ⟨[], rfl⟩
  | cons w rest ih =>
    obtain ⟨f, rfl⟩ := Wire.isField_exists w (h w (by simp))
    obtain ⟨fs, hfs⟩ := ih (fun x hx => h x (by simp [hx]))
    exact ⟨f :: fs, by simp [mapFromString, Wire.fromString, hfs]⟩

/-- The spec-worded level-indexed walk agrees with the index-consuming fold,
with the level offset realised by a right shift of the index. -/
theorem rootLoopSpec_eq_shift (env : HashEnv) (idx : Nat) (l : List F) :
    ∀ (i : Nat) (acc : F),
      rootLoopSpec env idx acc i l = computeRootFromSiblingPath env acc l (idx >>> i) := by
  induction l with
  | nil => intro i acc; rfl
  | cons s rest ih =>
    intro i acc
    have hdiv : idx >>> (i + 1) = (idx >>> i) / 2 := Nat.shiftRight_succ idx i
    have hbit : idx.testBit i = decide ((idx >>> i) % 2 = 1) := by
      rw [Nat.testBit_to_div_mod, Nat.shiftRight_eq_div_pow]
    rcases Nat.mod_two_eq_zero_or_one (idx >>> i) with h2 | h2
    · have hb : idx.testBit i = false := by
        rw [hbit, h2]; simp
      simp only [rootLoopSpec, computeRootFromSiblingPath, hb, h2, if_pos, ih, hdiv]
      simp
    · have hb : idx.testBit i = true := by
        rw [hbit, h2]; simp
      simp only [rootLoopSpec, computeRootFromSiblingPath, hb, ih, hdiv]
      simp [h2]

/-- The fold only ever consults the low `siblings.length` bits of the index:
higher bits are silently discarded. -/
theorem computeRootFromSiblingPath_mask (env : HashEnv) (l : List F) :
    ∀ (acc : F) (idx : Nat),
      computeRootFromSiblingPath env acc l idx
        = computeRootFromSiblingPath env acc l (idx % 2 ^ l.length) := by
  induction l with
  | nil => intro acc idx; rfl
  | cons s rest ih =>
    intro acc idx
    have hpow : (2 : Nat) ^ (rest.length + 1) = 2 * 2 ^ rest.length := by
      rw [pow_succ, Nat.mul_comm]
    have hmod : idx % 2 ^ (rest.length + 1) % 2 = idx % 2 := by
      rw [Nat.mod_mod_of_dvd idx (by rw [hpow]; exact Dvd.intro _ rfl)]
    have hdiv : idx % 2 ^ (rest.length + 1) / 2 = idx / 2 % 2 ^ rest.length := by
      rw [hpow, Nat.mod_mul_right_div_self]
    have h1 : computeRootFromSiblingPath env acc (s :: rest) idx
        = computeRootFromSiblingPath env
            (if idx % 2 = 0 then env.hashPair acc s else env.hashPair s acc)
            rest (idx / 2) := rfl
    have h2 : computeRootFromSiblingPath env acc (s :: rest) (idx % 2 ^ (s :: rest).length)
        = computeRootFromSiblingPath env
            (if idx % 2 ^ (rest.length + 1) % 2 = 0 then env.hashPair acc s
              else env.hashPair s acc)
            rest (idx % 2 ^ (rest.length + 1) / 2) := rfl
    rw [h1, h2, hmod, hdiv]
    exact ih _ _

/-- Reduction of the generic flow when the backend step returns a result. -/
theorem verifyOwnershipProof_ok (env : HashEnv)
    (knownAccountTypes : Wire → Option KnownAccountType)
    (backendVerify : ProofBlob → Except String Bool)
    (pd : GenericOwnershipProof) (ec : Option String) (proofResult : CheckResult)
    (hzk : verifyZkProof backendVerify pd ec = Except.ok proofResult) :
    verifyOwnershipProof env knownAccountTypes backendVerify pd ec = Except.ok
      { isValid := (verifyVkMembership env pd).isValid
          && (verifySelectorIsAuthwit pd).isValid && proofResult.isValid,
        contractClassId := pd.contractClass.id,
        message := if (verifyVkMembership env pd).isValid
            && (verifySelectorIsAuthwit pd).isValid && proofResult.isValid then
            "Verified: Prover controls an account of contract class "
              ++ pd.contractClass.id.render
          else "Verification FAILED",
        details := some { vkMembershipValid := (verifyVkMembership env pd).isValid,
                          contractClassIdValid := (verifyVkMembership env pd).isValid,
                          proofValid := proofResult.isValid,
                          selectorValid := (verifySelectorIsAuthwit pd).isValid } } := by
  unfold verifyOwnershipProof
  rw [hzk]

/-- Reduction of the generic flow when the backend collaborator fails. -/
theorem verifyOwnershipProof_error (env : HashEnv)
    (knownAccountTypes : Wire → Option KnownAccountType)
    (backendVerify : ProofBlob → Except String Bool)
    (pd : GenericOwnershipProof) (ec : Option String) (e : String)
    (hzk : verifyZkProof backendVerify pd ec = Except.error e) :
    verifyOwnershipProof env knownAccountTypes backendVerify pd ec = Except.error e := by
  unfold verifyOwnershipProof
  rw [hzk]

/-! Claim theorems. -/

/-- C1: for every payload processed by the generic end-to-end flow, the overall
isValid of the returned VerificationResult equals the conjunction of the
VK-membership check, the function-selector check and the ZK-proof check, and the
account-type identification step has no effect on the result: the flow returns
the same value under any two registries. -/
theorem c1_overall_iff_conjunction (env : HashEnv)
    (reg reg2 : Wire → Option KnownAccountType)
    (bv : ProofBlob → Except String Bool) (pd : GenericOwnershipProof)
    (ec : Option String) (pr : CheckResult)
    (hzk : verifyZkProof bv pd ec = Except.ok pr) :
    (∃ r, verifyOwnershipProof env reg bv pd ec = Except.ok r ∧
        r.isValid = ((verifyVkMembership env pd).isValid
          && (verifySelectorIsAuthwit pd).isValid && pr.isValid)) ∧
    verifyOwnershipProof env reg bv pd ec = verifyOwnershipProof env reg2 bv pd ec := by
  refine ⟨⟨_, verifyOwnershipProof_ok env reg bv pd ec pr hzk, rfl⟩, ?_⟩
  rw [verifyOwnershipProof_ok env reg bv pd ec pr hzk,
      verifyOwnershipProof_ok env reg2 bv pd ec pr hzk]

/-- Witness for C1 at a concrete payload: an accepting backend, no expected
challenge, and two different registries (empty and nonempty). -/
theorem c1_witness :
    (∃ r, verifyOwnershipProof sampleEnv (fun _ => none) (fun _ => Except.ok true)
          samplePayloadValid none = Except.ok r ∧
        r.isValid = ((verifyVkMembership sampleEnv samplePayloadValid).isValid
          && (verifySelectorIsAuthwit samplePayloadValid).isValid && true)) ∧
    verifyOwnershipProof sampleEnv (fun _ => none) (fun _ => Except.ok true)
        samplePayloadValid none
      = verifyOwnershipProof sampleEnv
          (fun _ => some { name := "SchnorrAccount", description := "demo" })
          (fun _ => Except.ok true) samplePayloadValid none :=
  c1_overall_iff_conjunction sampleEnv (fun _ => none)
    (fun _ => some { name := "SchnorrAccount", description := "demo" })
    (fun _ => Except.ok true) samplePayloadValid none
    { isValid := true, message := "ZK proof verified successfully" } rfl

/-- Counterexample to C2 as stated: the call with leaf index 2 and a sibling
path of length 1 violates the precondition 2 < 2 ^ 1, yet the computation does
not fail with any error - it succeeds, hashing the leaf first, and silently
returns the same root as leaf index 0 (the higher bit is masked). -/
theorem c2_counterexample :
    ¬ (2 < 2 ^ 1) ∧
    computeRootFromMembershipProof sampleEnv
        { selector := Wire.field 3, vkHash := Wire.field 4 } [7] 2
      = Except.ok (computeRootFromSiblingPath sampleEnv
          (computeFunctionLeafHash sampleEnv 3 4) [7] 2) ∧
    computeRootFromMembershipProof sampleEnv
        { selector := Wire.field 3, vkHash := Wire.field 4 } [7] 2
      = computeRootFromMembershipProof sampleEnv
          { selector := Wire.field 3, vkHash := Wire.field 4 } [7] 0 :=
  ⟨by decide, rfl, rfl⟩

/-- C2 amended: the code performs no precondition validation at all.  For every
well-formed leaf preimage, every sibling path and every leaf index - including
every index violating leafIndex < 2 ^ siblingPath.length - the root computation
succeeds and equals the computation on the masked index
leafIndex % 2 ^ siblingPath.length: high bits are silently discarded, no
InvalidProof error exists, and no sibling-path-length check against a declared
tree height is performed (the payload carries no tree-height field). -/
theorem c2_amended_no_validation (env : HashEnv) (sel vkh : F) (sibs : List F)
    (idx : Nat) :
    computeRootFromMembershipProof env
        { selector := Wire.field sel, vkHash := Wire.field vkh } sibs idx
      = Except.ok (computeRootFromSiblingPath env
          (computeFunctionLeafHash env sel vkh) sibs (idx % 2 ^ sibs.length)) := by
  show Except.ok (computeRootFromSiblingPath env
      (computeFunctionLeafHash env sel vkh) sibs idx) = _
  rw [computeRootFromSiblingPath_mask]

/-- C3: under the precondition leafIndex < 2 ^ siblingPath.length, the root
recomputed by computeRootFromMembershipProof equals the spec-worded algorithm:
start from the leaf hash and, for each level i, combine left when bit i of the
leaf index is 0 and right when it is 1. -/
theorem c3_root_matches_spec_algorithm (env : HashEnv) (sel vkh : F)
    (sibs : List F) (idx : Nat) (hidx : idx < 2 ^ sibs.length) :
    computeRootFromMembershipProof env
        { selector := Wire.field sel, vkHash := Wire.field vkh } sibs idx
      = Except.ok (rootFromSiblingPathSpec env
          (computeFunctionLeafHash env sel vkh) sibs idx) := by
  show Except.ok (computeRootFromSiblingPath env
      (computeFunctionLeafHash env sel vkh) sibs idx) = _
  rw [rootFromSiblingPathSpec, rootLoopSpec_eq_shift, Nat.shiftRight_zero]

/-- Witness for C3 at a concrete in-range input. -/
theorem c3_witness :
    1 < 2 ^ 2 ∧
    computeRootFromMembershipProof sampleEnv
        { selector := Wire.field 99, vkHash := Wire.field 4 } [7, 8] 1
      = Except.ok (rootFromSiblingPathSpec sampleEnv
          (computeFunctionLeafHash sampleEnv 99 4) [7, 8] 1) :=
  ⟨by decide, c3_root_matches_spec_algorithm sampleEnv 99 4 [7, 8] 1 (by decide)⟩

/-- C4: on structurally well-formed inputs, verifyVkMembershipAndComputeClassId
returns exactly the pair of the class id computed from the recomputed
private-functions root (never a prover-claimed root - the function receives no
claimed root or claimed id) together with that recomputed root. -/
theorem c4_classid_from_recomputed_root (env : HashEnv) (sel vkh a b : F)
    (sibs : List F) (idx : Nat) :
    verifyVkMembershipAndComputeClassId env
        { leafPreimage := { selector := Wire.field sel, vkHash := Wire.field vkh },
          siblingPath := sibs.map Wire.field, leafIndex := idx }
        (Wire.field a) (Wire.field b)
      = Except.ok
          { computedClassId := computeContractClassId env a
              (computeRootFromSiblingPath env
                (computeFunctionLeafHash env sel vkh) sibs idx) b,
            computedPrivateFunctionsRoot :=
              computeRootFromSiblingPath env
                (computeFunctionLeafHash env sel vkh) sibs idx } := by
  unfold verifyVkMembershipAndComputeClassId
  rw [mapFromString_map_field]
  exact rfl

/-- Counterexample to C5 as stated: a payload whose leaf-preimage selector
(field value 99) differs from the expected function's selector, but whose
declared metadata function name is the expected literal, is fully accepted:
selectorValid = true and overall isValid = true, because the flow never
compares the leaf selector against anything. -/
theorem c5_counterexample :
    samplePayloadValid.vkMembershipProof.leafPreimage.selector
        ≠ expectedAuthwitSelectorSample ∧
    verifyOwnershipProof sampleEnv (fun _ => none) (fun _ => Except.ok true)
        samplePayloadValid none = Except.ok sampleValidResult ∧
    sampleValidResult.details.map (fun d => d.selectorValid) = some true ∧
    sampleValidResult.isValid = true :=
  ⟨by decide, rfl, rfl, rfl⟩

/-- C5 amended: the gate is the declared metadata.functionName, not the leaf
selector.  For every payload whose metadata.functionName differs from
verify_private_authwit, the flow reports selectorValid = false and overall
isValid = false (vkMembershipValid may independently still be true, as the
witness shows). -/
theorem c5_amended_function_name_gate (env : HashEnv)
    (reg : Wire → Option KnownAccountType) (bv : ProofBlob → Except String Bool)
    (pd : GenericOwnershipProof) (ec : Option String) (r : VerificationResult)
    (hname : pd.metadata.functionName ≠ "verify_private_authwit")
    (h : verifyOwnershipProof env reg bv pd ec = Except.ok r) :
    r.isValid = false ∧ r.details.map (fun d => d.selectorValid) = some false := by
  cases hzk : verifyZkProof bv pd ec with
  | error e =>
    rw [verifyOwnershipProof_error env reg bv pd ec e hzk] at h
    exact absurd h (by simp)
  | ok pr =>
    rw [verifyOwnershipProof_ok env reg bv pd ec pr hzk] at h
    injection h with h2
    subst h2
    have hsel : (verifySelectorIsAuthwit pd).isValid = false := by
      simp [verifySelectorIsAuthwit, hname]
    exact ⟨by simp [hsel], by simp [hsel]⟩

/-- Witness for the amended C5: wrong declared name, everything else valid -
selector check fails, overall result fails, VK membership still passes. -/
theorem c5_witness :
    pdWrongName.metadata.functionName ≠ "verify_private_authwit" ∧
    (pdWrongNameResult.isValid = false ∧
      pdWrongNameResult.details.map (fun d => d.selectorValid) = some false) ∧
    pdWrongNameResult.details.map (fun d => d.vkMembershipValid) = some true :=
  ⟨by decide,
    c5_amended_function_name_gate sampleEnv (fun _ => none)
      (fun _ => Except.ok true) pdWrongName none pdWrongNameResult (by decide) rfl,
    rfl⟩

/-- Counterexample to C6 as stated: the caller-supplied expected challenge ""
differs from the payload's embedded challenge "0xabc", yet the ZK-proof step
does not short-circuit to false - the JS truthiness guard treats the empty
string as absent, skips the comparison and consults the backend, here returning
isValid = true. -/
theorem c6_counterexample :
    ("" : String) ≠ samplePayloadValid.challenge ∧
    verifyZkProof (fun _ => Except.ok true) samplePayloadValid (some "")
      = Except.ok { isValid := true, message := "ZK proof verified successfully" } :=
  ⟨by decide, rfl⟩

/-- C6 amended: for every NON-EMPTY caller-supplied expected challenge that
differs from the payload's embedded challenge, the ZK-proof step returns
isValid = false with a mismatch message, independently of the backend (so it is
never invoked), and the final result carries proofValid = false; when no
expected challenge is supplied - or when the supplied one is the empty string,
which the truthiness guard treats as absent - the comparison is skipped and
backend verification proceeds. -/
theorem c6_amended_nonempty_challenge (bv bv2 : ProofBlob → Except String Bool)
    (pd : GenericOwnershipProof) (c : String) (hne : c ≠ "")
    (hch : pd.challenge ≠ c) :
    verifyZkProof bv pd (some c) = Except.ok
        { isValid := false,
          message := "Challenge mismatch: expected " ++ c ++ ", got " ++ pd.challenge } ∧
    verifyZkProof bv pd (some c) = verifyZkProof bv2 pd (some c) ∧
    verifyZkProof bv pd none = verifyZkProofBackend bv pd ∧
    verifyZkProof bv pd (some "") = verifyZkProofBackend bv pd ∧
    (∀ (env : HashEnv) (reg : Wire → Option KnownAccountType) (r : VerificationResult),
      verifyOwnershipProof env reg bv pd (some c) = Except.ok r →
        r.details.map (fun d => d.proofValid) = some false) := by
  have h1 : verifyZkProof bv pd (some c) = Except.ok
      { isValid := false,
        message := "Challenge mismatch: expected " ++ c ++ ", got " ++ pd.challenge } := by
    simp [verifyZkProof, hne, hch]
  have h2 : verifyZkProof bv2 pd (some c) = Except.ok
      { isValid := false,
        message := "Challenge mismatch: expected " ++ c ++ ", got " ++ pd.challenge } := by
    simp [verifyZkProof, hne, hch]
  refine ⟨h1, h1.trans h2.symm, rfl, by simp [verifyZkProof], ?_⟩
  intro env reg r hr
  rw [verifyOwnershipProof_ok env reg bv pd (some c) _ h1] at hr
  injection hr with h3
  subst h3
  rfl

/-- Witness for the amended C6 at a concrete mismatching non-empty challenge. -/
theorem c6_witness :
    ("0xdead" : String) ≠ "" ∧ samplePayloadValid.challenge ≠ "0xdead" ∧
    verifyZkProof (fun _ => Except.ok true) samplePayloadValid (some "0xdead")
      = Except.ok
          { isValid := false,
            message := "Challenge mismatch: expected " ++ "0xdead" ++ ", got "
              ++ samplePayloadValid.challenge } :=
  ⟨by decide, by decide,
    (c6_amended_nonempty_challenge (fun _ => Except.ok true)
      (fun _ => Except.ok false) samplePayloadValid "0xdead"
      (by decide) (by decide)).1⟩

/-- Counterexample to C7 as stated: the Schnorr-specific verifyOwnershipProof of
scripts/verify_proof.ts raises an exception on a challenge mismatch - a
legitimate cryptographic mismatch - instead of returning a structured result. -/
theorem c7_counterexample :
    sampleSchnorrProofData.publicInputs.challenge ≠ [1] ∧
    Schnorr.verifyOwnershipProof (fun _ => Except.ok true)
        sampleSchnorrProofData (some [1])
      = Except.error "Challenge mismatch - possible replay attack" :=
  ⟨by decide, rfl⟩

/-- C7 amended: in the GENERIC flow (verify.ts), whenever the backend
collaborator itself returns a boolean (no collaborator failure), the flow
terminates normally with a structured result, and each legitimate cryptographic
mismatch - computed class id differing from the claim, declared function name
differing from the expected one, non-empty challenge mismatch, backend
rejection - appears as a false boolean (with a descriptive message for the
class-id case), never as an exception; the Schnorr-specific flow of
scripts/verify_proof.ts, by contrast, throws on a challenge mismatch, as the
counterexample shows. -/
theorem c7_amended_generic_flow (env : HashEnv)
    (reg : Wire → Option KnownAccountType) (bv : ProofBlob → Except String Bool)
    (pd : GenericOwnershipProof) (ec : Option String) (bb : Bool)
    (hbv : bv pd.proof = Except.ok bb) :
    ∃ r, verifyOwnershipProof env reg bv pd ec = Except.ok r
      ∧ (∀ cr, verifyVkMembershipAndComputeClassId env pd.vkMembershipProof
            pd.contractClass.artifactHash pd.contractClass.publicBytecodeCommitment
            = Except.ok cr →
          Wire.field cr.computedClassId ≠ pd.contractClass.id →
          r.details.map (fun d => d.vkMembershipValid) = some false
            ∧ (verifyVkMembership env pd).message
                = "VK membership verification FAILED - computed class ID does not match claimed ID")
      ∧ (pd.metadata.functionName ≠ "verify_private_authwit" →
          r.details.map (fun d => d.selectorValid) = some false)
      ∧ (∀ c, ec = some c → c ≠ "" → pd.challenge ≠ c →
          r.details.map (fun d => d.proofValid) = some false)
      ∧ (bb = false → r.details.map (fun d => d.proofValid) = some false) := by
  have hback : verifyZkProofBackend bv pd = Except.ok
      { isValid := bb,
        message := if bb then "ZK proof verified successfully"
          else "ZK proof verification failed" } := by
    unfold verifyZkProofBackend
    rw [hbv]
  obtain ⟨pr, hzk, hchprop, hbbprop⟩ :
      ∃ pr, verifyZkProof bv pd ec = Except.ok pr
        ∧ (∀ c, ec = some c → c ≠ "" → pd.challenge ≠ c → pr.isValid = false)
        ∧ (bb = false → pr.isValid = false) := by
    cases ec with
    | none =>
      refine ⟨_, hback, ?_, fun hb => hb⟩
      intro c hc
      exact absurd hc (by simp)
    | some c =>
      by_cases hce : c = ""
      · subst hce
        refine ⟨_, by simpa [verifyZkProof] using hback, ?_, fun hb => hb⟩
        intro c2 hc2 hne2 _
        injection hc2 with h3
        exact absurd h3.symm hne2
      · by_cases hch : pd.challenge = c
        · have heq : verifyZkProof bv pd (some c) = verifyZkProofBackend bv pd := by
            simp [verifyZkProof, hce, hch]
          refine ⟨_, heq.trans hback, ?_, fun hb => hb⟩
          intro c2 hc2 hne2 hch2
          injection hc2 with h3
          subst h3
          exact absurd hch hch2
        · have hzkm : verifyZkProof bv pd (some c) = Except.ok
              { isValid := false,
                message := "Challenge mismatch: expected " ++ c ++ ", got "
                  ++ pd.challenge } := by
            simp [verifyZkProof, hce, hch]
          exact ⟨_, hzkm, fun c2 hc2 hne2 hch2 => rfl, fun hb => rfl⟩
  refine ⟨_, verifyOwnershipProof_ok env reg bv pd ec pr hzk, ?_, ?_, ?_, ?_⟩
  · intro cr hcr hne
    have hvk : verifyVkMembership env pd =
        { isValid := false, computedClassId := some cr.computedClassId,
          computedPrivateFunctionsRoot := some cr.computedPrivateFunctionsRoot,
          message := "VK membership verification FAILED - computed class ID does not match claimed ID" } := by
      unfold verifyVkMembership
      rw [hcr]
      simp [hne]
    rw [hvk]
    exact ⟨rfl, rfl⟩
  · intro hname
    have hsel : (verifySelectorIsAuthwit pd).isValid = false := by
      simp [verifySelectorIsAuthwit, hname]
    simp [hsel]
  · intro c hc hne hch
    have hpv := hchprop c hc hne hch
    simp [hpv]
  · intro hb
    have hpv := hbbprop hb
    simp [hpv]

/-- Witness for the amended C7: a payload failing the class-id check and the
name check at once, with a rejecting backend and a mismatching non-empty
expected challenge - the flow still returns a structured result carrying three
false booleans. -/
theorem c7_witness :
    ∃ r, verifyOwnershipProof sampleEnv (fun _ => none) (fun _ => Except.ok false)
          pdAllBad (some "0xdead") = Except.ok r
      ∧ r.details.map (fun d => d.vkMembershipValid) = some false
      ∧ r.details.map (fun d => d.selectorValid) = some false
      ∧ r.details.map (fun d => d.proofValid) = some false := by
  obtain ⟨r, hr, hvk, hsel, hch, hbb⟩ :=
    c7_amended_generic_flow sampleEnv (fun _ => none) (fun _ => Except.ok false)
      pdAllBad (some "0xdead") false rfl
  exact ⟨r, hr, (hvk _ rfl (by decide)).1, hsel (by decide),
    hch "0xdead" rfl (by decide) (by decide)⟩

/-- C8: on every structurally well-formed input (all wire strings canonical
field elements), verifyVkMembershipAndComputeClassId returns some identifier
and never throws; a mismatch with a claimed identifier can only be observed by
the caller as value inequality, since the function performs no comparison. -/
theorem c8_total_on_wellformed (env : HashEnv) (p : VkMembershipProof) (a b : Wire)
    (h1 : p.leafPreimage.selector.isField = true)
    (h2 : p.leafPreimage.vkHash.isField = true)
    (h3 : ∀ w ∈ p.siblingPath, w.isField = true)
    (h4 : a.isField = true) (h5 : b.isField = true) :
    ∃ r, verifyVkMembershipAndComputeClassId env p a b = Except.ok r := by
  obtain ⟨⟨sel, vkh⟩, sp, idx⟩ := p
  obtain ⟨sf, rfl⟩ := Wire.isField_exists sel h1
  obtain ⟨vf, rfl⟩ := Wire.isField_exists vkh h2
  obtain ⟨af, rfl⟩ := Wire.isField_exists a h4
  obtain ⟨bf, rfl⟩ := Wire.isField_exists b h5
  obtain ⟨fs, hfs⟩ := mapFromString_ok sp h3
  refine ⟨⟨computeContractClassId env af
      (computeRootFromSiblingPath env (computeFunctionLeafHash env sf vf) fs idx) bf,
    computeRootFromSiblingPath env (computeFunctionLeafHash env sf vf) fs idx⟩, ?_⟩
  unfold verifyVkMembershipAndComputeClassId computeRootFromMembershipProof
  rw [hfs]
  exact rfl

/-- Witness for C8 at the sample membership proof. -/
theorem c8_witness :
    ((samplePayloadValid.vkMembershipProof.leafPreimage.selector.isField = true) ∧
      (∀ w ∈ samplePayloadValid.vkMembershipProof.siblingPath, w.isField = true)) ∧
    ∃ r, verifyVkMembershipAndComputeClassId sampleEnv
        samplePayloadValid.vkMembershipProof (Wire.field 10) (Wire.field 11)
      = Except.ok r :=
  ⟨⟨by decide, by decide⟩,
    c8_total_on_wellformed sampleEnv samplePayloadValid.vkMembershipProof
      (Wire.field 10) (Wire.field 11) (by decide) (by decide) (by decide) rfl rfl⟩

/-- C9: in every VerificationResult produced by the generic flow, the details
fields contractClassIdValid and vkMembershipValid are equal - both are set from
the single class-id comparison of the VK-membership step. -/
theorem c9_details_fields_agree (env : HashEnv)
    (reg : Wire → Option KnownAccountType) (bv : ProofBlob → Except String Bool)
    (pd : GenericOwnershipProof) (ec : Option String) (r : VerificationResult)
    (h : verifyOwnershipProof env reg bv pd ec = Except.ok r) :
    r.details.map (fun d => d.contractClassIdValid)
      = r.details.map (fun d => d.vkMembershipValid) := by
  cases hzk : verifyZkProof bv pd ec with
  | error e =>
    rw [verifyOwnershipProof_error env reg bv pd ec e hzk] at h
    exact absurd h (by simp)
  | ok pr =>
    rw [verifyOwnershipProof_ok env reg bv pd ec pr hzk] at h
    injection h with h2
    subst h2
    rfl

/-- Witness for C9 at the concrete valid sample run. -/
theorem c9_witness :
    sampleValidResult.details.map (fun d => d.contractClassIdValid)
      = sampleValidResult.details.map (fun d => d.vkMembershipValid) :=
  c9_details_fields_agree sampleEnv (fun _ => none) (fun _ => Except.ok true)
    samplePayloadValid none sampleValidResult rfl

/-- C10: the contractClassId field of every VerificationResult returned by the
generic flow is the claimed identifier copied verbatim from the payload, never
the recomputed one. -/
theorem c10_contract_class_id_verbatim (env : HashEnv)
    (reg : Wire → Option KnownAccountType) (bv : ProofBlob → Except String Bool)
    (pd : GenericOwnershipProof) (ec : Option String) (r : VerificationResult)
    (h : verifyOwnershipProof env reg bv pd ec = Except.ok r) :
    r.contractClassId = pd.contractClass.id := by
  cases hzk : verifyZkProof bv pd ec with
  | error e =>
    rw [verifyOwnershipProof_error env reg bv pd ec e hzk] at h
    exact absurd h (by simp)
  | ok pr =>
    rw [verifyOwnershipProof_ok env reg bv pd ec pr hzk] at h
    injection h with h2
    subst h2
    rfl

/-- Witness for C10 at a concrete FAILING run: the claimed id (field 0) differs
from the recomputed one, verification fails, and the result still carries the
claimed id verbatim. -/
theorem c10_witness :
    pdBadIdResult.contractClassId = pdBadId.contractClass.id ∧
    pdBadIdResult.isValid = false :=
  ⟨c10_contract_class_id_verbatim sampleEnv (fun _ => none)
      (fun _ => Except.ok true) pdBadId none pdBadIdResult rfl, rfl⟩
